import Mathlib

/-!
Verification of the reactive data-source core of the rx-data-source
repository.

The development shallowly embeds the three layered components:

* `Interval` (src/app/core/models/interval.model.ts, with the later
  revision of the same class that guards the timer with a 0.1 s
  threshold) — modelled as a timeline: given the configured refresh
  interval and the times of the manual refresh calls, a decidable
  predicate says at which instants the merged execute stream emits.

* `DataSource` (src/app/core/models/data-source.model.ts together with
  the prepare/finalize based indicate operator) — modelled as an
  executable event-step machine.  The state keeps the four observable
  fields (data, error, initialState, loading), the currently configured
  source observable (by identity), the generation of the currently
  subscribed fetch, and the emission logs of the derived selectors
  (newest first), reproducing rx-angular RxState select semantics:
  undefined values are filtered and consecutive emissions are
  deduplicated by JavaScript strict equality.  Fetch deliveries are
  environment events tagged with the generation that produced them, so
  a trace may contain late deliveries of superseded fetches; the
  switchMap/takeUntil unsubscription of the code corresponds to such
  deliveries finding no live subscription.

* `TableDataSource` (src/app/core/models/table-data-source.model.ts and
  its later revision) — the page accumulator, the row accumulation scan
  and the pagination-parameter derivation are embedded as the pure
  functions the rxjs operators apply.
-/

namespace RxDataSource

/-! ### JavaScript values

Data flowing through the pipelines is either a primitive or an array
object.  Array objects carry a reference identity besides their
elements, because rxjs distinctUntilChanged and rx-angular select
compare with JavaScript strict equality, which on objects is reference
equality. -/

inductive JSVal where
  /-- A primitive value (numbers suffice for the claims). -/
  | prim (n : Int)
  /-- An array object: reference identity and element list. -/
  | arr (ref : Nat) (elems : List Int)
deriving DecidableEq, Repr

/-- JavaScript strict equality on values: primitives compare by value,
array objects by reference. -/
def strictEq : JSVal → JSVal → Bool
  | .prim a, .prim b => a == b
  | .arr r _, .arr r2 _ => r == r2
  | _, _ => false

/-- Structural (deep) value equality: primitives by value, arrays by
their element lists, ignoring reference identity. -/
def valueEq : JSVal → JSVal → Bool
  | .prim a, .prim b => a == b
  | .arr _ xs, .arr _ ys => xs == ys
  | _, _ => false

/-- A nullable JavaScript value: `none` is null. -/
abbrev NVal := Option JSVal

/-- Strict equality on nullable values (null is strictly equal only to
null). -/
def strictEqN : NVal → NVal → Bool
  | none, none => true
  | some a, some b => strictEq a b
  | _, _ => false

namespace DataSource

/-- State of the embedded DataSource machine.

Fields `data`, `error`, `initialState`, `loading` mirror
DataSourceState of data-source.model.ts; `data` is doubly optional
because the initial state leaves the data key undefined (rx-angular
select filters undefined, so data$ does not emit before the first
write), while null is a written value that does emit.

`source` is the identity of the observable currently stored under the
dataSource key (none before the first setSource/connectSource write).
`active` is the generation of the fetch subscription currently live in
the switchMap chain, `nextGen` the next fresh generation.

The four log fields record the emissions of data$, error$, initialState$
and loading$ (newest first), after the select-level undefined filter
and strict-equality deduplication. -/
structure State where
  data : Option NVal
  error : Option Nat
  initialState : Bool
  loading : Bool
  source : Option Nat
  active : Option Nat
  nextGen : Nat
  dataLog : List NVal
  errorLog : List (Option Nat)
  initLog : List Bool
  loadLog : List Bool
deriving DecidableEq, Repr

/-- Initial state: initDataSourceState sets loading=false, error=null,
initialState=true and leaves data undefined; the selectors replay the
defined fields at subscription. -/
def initState : State :=
  { data := none
    error := none
    initialState := true
    loading := false
    source := none
    active := none
    nextGen := 0
    dataLog := []
    errorLog := [none]
    initLog := [true]
    loadLog := [false] }

/-- Write the data key (state.set on data) and let data$ emit unless the
new value is strictly equal to the current defined one. -/
def setData (s : State) (v : NVal) : State :=
  if (match s.data with
      | some old => strictEqN old v
      | none => false) then s
  else { s with data := some v, dataLog := v :: s.dataLog }

/-- Write the error key; error$ emits when the value changes (errors are
distinct objects, modelled by identifiers). -/
def setError (s : State) (e : Option Nat) : State :=
  if s.error = e then s
  else { s with error := e, errorLog := e :: s.errorLog }

/-- Write the initialState key; initialState$ deduplicates. -/
def setInit (s : State) (b : Bool) : State :=
  if s.initialState = b then s
  else { s with initialState := b, initLog := b :: s.initLog }

/-- Write the loading key; loading$ deduplicates. -/
def setLoading (s : State) (b : Bool) : State :=
  if s.loading = b then s
  else { s with loading := b, loadLog := b :: s.loadLog }

/-- Environment events driving the machine.

`pulse` is an execute$ emission of the internal Interval.  `setSource`
is a write of the dataSource key (source setter or an emission of a
connectSource stream), carrying the identity of the new observable.
`next`, `fail` and `complete` are the callbacks of the asynchronous
source created by the fetch of generation `g`; the environment may
schedule them at any later point, including after the generation was
superseded.  `clearData`, `reset` and `resetAndRefresh` are the
actions. -/
inductive Ev where
  | pulse
  | setSource (sid : Nat)
  | next (g : Nat) (v : JSVal)
  | fail (g : Nat) (e : Nat)
  | complete (g : Nat)
  | clearData
  | reset
  | resetAndRefresh
deriving DecidableEq, Repr

/-- Interrupt the currently subscribed fetch, if any: unsubscription
runs the finalize of the indicate operator, which sets loading to
false. -/
def dropActive (s : State) : State :=
  if s.active.isSome then setLoading s false else s

/-- Subscribe the currently configured source, if any: the prepare of
the indicate operator sets loading to true and a fresh fetch generation
becomes live. -/
def subscribeSource (s : State) : State :=
  match s.source with
  | none => { s with active := none }
  | some _ =>
      let s2 := setLoading s true
      { s2 with active := some s.nextGen, nextGen := s.nextGen + 1 }

/-- An execute$ pulse: the switchMap of the data connect pipeline
unsubscribes the previous dataSource$ chain (interrupting an in-flight
fetch) and resubscribes it, and select(dataSource) replays the current
source, starting a new fetch. -/
def stepPulse (s : State) : State :=
  subscribeSource (dropActive s)

/-- A write of the dataSource key.  select(dataSource) deduplicates by
strict equality, so re-setting the same observable is a no-op;
otherwise the inner switchMap unsubscribes the in-flight fetch and
subscribes the new source immediately. -/
def stepSetSource (s : State) (sid : Nat) : State :=
  if s.source = some sid then s
  else subscribeSource (dropActive { s with source := some sid })

/-- A value delivered by the fetch of generation `g`.  If that
subscription is no longer live the delivery has no recipient.
Otherwise the map operator sets error to null and initialState to
false, and the connect writes the response into the data key. -/
def stepNext (s : State) (g : Nat) (v : JSVal) : State :=
  if s.active = some g then
    setData (setInit (setError s none) false) (some v)
  else s

/-- An error delivered by the fetch of generation `g`.  If live, the
catchError sets error and initialState and returns EMPTY, so the inner
chain completes and the finalize of indicate sets loading to false. -/
def stepFail (s : State) (g : Nat) (e : Nat) : State :=
  if s.active = some g then
    let s2 := setInit (setError s (some e)) false
    { setLoading s2 false with active := none }
  else s

/-- Completion of the fetch of generation `g`: the finalize of indicate
sets loading to false. -/
def stepComplete (s : State) (g : Nat) : State :=
  if s.active = some g then { setLoading s false with active := none }
  else s

/-- The clearData action sets data to null. -/
def stepClearData (s : State) : State :=
  setData s none

/-- The reset action applies resetDataSourceState: data = null and
initialState = true, in one state.set. -/
def stepReset (s : State) : State :=
  setInit (setData s none) true

/-- One step of the machine. -/
def step (s : State) : Ev → State
  | .pulse => stepPulse s
  | .setSource sid => stepSetSource s sid
  | .next g v => stepNext s g v
  | .fail g e => stepFail s g e
  | .complete g => stepComplete s g
  | .clearData => stepClearData s
  | .reset => stepReset s
  | .resetAndRefresh => stepPulse (stepReset s)

/-- Run the machine over a trace of events. -/
def run (s : State) (tr : List Ev) : State :=
  tr.foldl step s

/-- A state is reachable when some trace leads to it from the initial
state. -/
def Reachable (s : State) : Prop :=
  ∃ tr : List Ev, s = run initState tr

/-- Generation bookkeeping invariant: the live fetch generation is
always below the fresh-generation counter. -/
def GenOk (s : State) : Prop :=
  ∀ g, s.active = some g → g < s.nextGen

/-- The fetch of generation `g` is superseded in `s`: its subscription
is not the live one and its generation can never become live again. -/
def Stale (g : Nat) (s : State) : Prop :=
  s.active ≠ some g ∧ g < s.nextGen

/-- Relation between the data key and the data$ emission log: the log
head is the current defined data value, the log is empty while the key
is still undefined, and no two consecutive emissions are strictly
equal. -/
def DataOkOn (d : Option NVal) (log : List NVal) : Prop :=
  (∀ x, d = some x → log.head? = some x) ∧
    (d = none → log = []) ∧
    List.Chain' (fun newer older => strictEqN older newer = false) log

/-- `DataOkOn` read off a machine state. -/
def DataOk (s : State) : Prop :=
  DataOkOn s.data s.dataLog

end DataSource

namespace Interval

/-- Period, in milliseconds, of the timer created by the interval$
pipeline of the revised interval model (the class with the 0.1 s
threshold): combineLatest of select(refreshInterval) and the refresh
stream, switchMapped to interval(refreshInterval * 1000) when
refreshInterval > 0.1 and to EMPTY otherwise.  Times are modelled in
integer milliseconds, so the configured interval is passed as
refreshInterval * 1000 (the threshold 0.1 s becomes 100 ms and the
second-to-millisecond multiplication of the source is the identity).
`none` means no timer: either refreshInterval is undefined (select
filters undefined, so combineLatest never fires) or the threshold
rejects it. -/
def thresholdPeriod (refreshIntervalMs : Option ℤ) : Option ℤ :=
  match refreshIntervalMs with
  | none => none
  | some q => if 100 < q then some q else none

/-- Period of the timer created by interval.model.ts as committed under
the named path: interval(isNumber(r) && r > 0 ? r * 1000 : undefined),
with the interval again given in integer milliseconds.  Passing
undefined to the rxjs interval function applies its default period of
0, a timer that fires continuously; an undefined refreshInterval still
yields no timer because select filters undefined before
combineLatest. -/
def namedPeriod (refreshIntervalMs : Option ℤ) : Option ℤ :=
  match refreshIntervalMs with
  | none => none
  | some q => some (if 0 < q then q else 0)

/-- Time of the last timer restart not after `t`: the timer starts at
subscription (time 0) and restarts on every refresh emission, because
combineLatest re-emits and the switchMap replaces the running timer. -/
def lastRestart (refreshes : List ℤ) (t : ℤ) : ℤ :=
  refreshes.foldl (fun acc tr => if tr ≤ t ∧ acc ≤ tr then tr else acc) 0

/-- Whether the timer with period `p` (restarted at the refresh times)
ticks at time `t`: the k-th tick after a restart at s happens at
s + k * p for k ≥ 1.  A period of 0 models the rxjs default-period
timer, which fires as soon as it is subscribed. -/
def autoAt (p : Option ℤ) (refreshes : List ℤ) (t : ℤ) : Bool :=
  match p with
  | none => false
  | some p =>
      let s := lastRestart refreshes t
      let d := t - s
      if p = 0 then d = 0
      else 0 < d ∧ p ∣ d

/-- Whether execute$ emits at time `t`: merge of the refresh action
stream and the timer ticks. -/
def executeAt (p : Option ℤ) (refreshes : List ℤ) (t : ℤ) : Bool :=
  refreshes.contains t || autoAt p refreshes t

end Interval

/-- Pagination strategies of table-config.model.ts. -/
inductive PaginationStrategy where
  | none
  | paginate
  | scroll
deriving DecidableEq, Repr

namespace TableDataSource

/-- The limit field: number | boolean. -/
inductive Limit where
  | num (n : Int)
  | bool (b : Bool)
deriving DecidableEq, Repr

/-- isNumber of validate.utils.ts applied to a limit. -/
def Limit.isNum : Limit → Bool
  | .num _ => true
  | .bool _ => false

/-- Skip/take pagination parameters. -/
structure PaginationParams where
  skip : Int
  take : Int
deriving DecidableEq, Repr

/-- Fallback limit for the paginate and scroll strategies when none is
already defined. -/
def fallbackLimit : Int := 10

/-- Effective take: the fallback limit when limit === true, or when
limit is not a number and the strategy is paginate or scroll; the limit
itself otherwise. -/
def effectiveTake (limit : Limit) (strategy : PaginationStrategy) : Limit :=
  if limit = .bool true ∨
      (¬ limit.isNum ∧
        (strategy = .paginate ∨ strategy = .scroll)) then
    .num fallbackLimit
  else limit

/-- The map of the paginationParams$ pipeline: skip/take when the
effective take is numeric, undefined otherwise. -/
def paginationParams (limit : Limit) (page : Int)
    (strategy : PaginationStrategy) : Option PaginationParams :=
  match effectiveTake limit strategy with
  | .num t => some { skip := (page - 1) * t, take := t }
  | .bool _ => none

/-- The comparator of the distinctUntilChanged on paginationParams$:
two derivations count as equal when both take and skip coincide
(undefined compares equal only to undefined). -/
def paramsEq (a b : Option PaginationParams) : Bool :=
  a.map PaginationParams.take == b.map PaginationParams.take &&
    a.map PaginationParams.skip == b.map PaginationParams.skip

/-- One step of a distinctUntilChanged stream: the accumulator holds
the emissions newest first, and a new value is appended only when the
comparator rejects equality with the previous emission. -/
def dedupCons (eq : α → α → Bool) (acc : List α) (v : α) : List α :=
  match acc with
  | prev :: _ => if eq prev v then acc else v :: acc
  | [] => [v]

/-- Emissions, in order, of a distinctUntilChanged stream fed the given
values. -/
def emitTrace (eq : α → α → Bool) (xs : List α) : List α :=
  (xs.foldl (dedupCons eq) []).reverse

/-- Emission trace of paginationParams$ over a list of
(limit, page, strategy) combinations: each combination is mapped
through the derivation and suppressed when equal, under the
comparator, to the previously emitted derivation. -/
def paramsTrace (inputs : List (Limit × Int × PaginationStrategy)) :
    List (Option PaginationParams) :=
  emitTrace paramsEq
    (inputs.map fun i => paginationParams i.1 i.2.1 i.2.2)

/-- The scan of the page accumulator: add the change, but a result of
0 or below leaves the accumulated page unchanged. -/
def pageStep (currentPage change : Int) : Int :=
  let newPage := currentPage + change
  if newPage ≤ 0 then currentPage else newPage

/-- Emissions of the scan seeded with `seed` over a list of changes (each nextPage or scroll action contributes +1, each
previousPage -1, and the two startWith(0) of the merged action streams
contribute a 0 each at subscription). -/
def pageScan (seed : Int) (changes : List Int) : List Int :=
  (changes.foldl (fun acc c => (pageStep acc.1 c, pageStep acc.1 c :: acc.2))
    (seed, [])).2.reverse

/-- Values exposed on page$ after a jumpToPage emission with the given
scan seed: the select on the page key deduplicates consecutive equal
values. -/
def pageTrace (seed : Int) (changes : List Int) : List Int :=
  emitTrace (fun a b => a == b) (pageScan seed changes)

/-- Scan seed used by table-data-source.model.ts as committed under the
named path: the raw jumpToPage value. -/
def namedSeed (jumpToPage : Int) : Int := jumpToPage

/-- Scan seed used by the later revision of the table data source: jump
to page values below 1 are clamped to 1. -/
def clampedSeed (jumpToPage : Int) : Int :=
  if jumpToPage ≥ 1 then jumpToPage else 1

/-- The scan of the rows connect pipeline: under the scroll strategy a
non-null batch is concatenated onto the current rows and a null batch
leaves them unchanged; under any other strategy the rows are replaced
by the batch, or emptied when it is null. -/
def rowsStep (currentRows : List Int) (newRows : Option (List Int))
    (scrollStrategy : Bool) : List Int :=
  if scrollStrategy then
    match newRows with
    | some nr => currentRows ++ nr
    | none => currentRows
  else newRows.getD []

/-- Rows after a sequence of data$ emissions, each paired with the
scroll flag latest at that moment; the scan is seeded with the empty
collection (the startWith of the reset pipeline). -/
def runRows (emissions : List (Option (List Int) × Bool)) : List Int :=
  emissions.foldl (fun rows e => rowsStep rows e.1 e.2) []

end TableDataSource

/-! ### Field bookkeeping of the state writes -/

namespace DataSource

variable (s : State)

@[simp] theorem setData_error (v : NVal) : (setData s v).error = s.error := by
  unfold setData; split <;> rfl

@[simp] theorem setData_errorLog (v : NVal) : (setData s v).errorLog = s.errorLog := by
  unfold setData; split <;> rfl

@[simp] theorem setData_initialState (v : NVal) :
    (setData s v).initialState = s.initialState := by
  unfold setData; split <;> rfl

@[simp] theorem setData_initLog (v : NVal) : (setData s v).initLog = s.initLog := by
  unfold setData; split <;> rfl

@[simp] theorem setData_loading (v : NVal) : (setData s v).loading = s.loading := by
  unfold setData; split <;> rfl

@[simp] theorem setData_loadLog (v : NVal) : (setData s v).loadLog = s.loadLog := by
  unfold setData; split <;> rfl

@[simp] theorem setData_source (v : NVal) : (setData s v).source = s.source := by
  unfold setData; split <;> rfl

@[simp] theorem setData_active (v : NVal) : (setData s v).active = s.active := by
  unfold setData; split <;> rfl

@[simp] theorem setData_nextGen (v : NVal) : (setData s v).nextGen = s.nextGen := by
  unfold setData; split <;> rfl

@[simp] theorem setError_data (e : Option Nat) : (setError s e).data = s.data := by
  unfold setError; split <;> rfl

@[simp] theorem setError_dataLog (e : Option Nat) : (setError s e).dataLog = s.dataLog := by
  unfold setError; split <;> rfl

@[simp] theorem setError_initialState (e : Option Nat) :
    (setError s e).initialState = s.initialState := by
  unfold setError; split <;> rfl

@[simp] theorem setError_initLog (e : Option Nat) : (setError s e).initLog = s.initLog := by
  unfold setError; split <;> rfl

@[simp] theorem setError_loading (e : Option Nat) : (setError s e).loading = s.loading := by
  unfold setError; split <;> rfl

@[simp] theorem setError_loadLog (e : Option Nat) : (setError s e).loadLog = s.loadLog := by
  unfold setError; split <;> rfl

@[simp] theorem setError_source (e : Option Nat) : (setError s e).source = s.source := by
  unfold setError; split <;> rfl

@[simp] theorem setError_active (e : Option Nat) : (setError s e).active = s.active := by
  unfold setError; split <;> rfl

@[simp] theorem setError_nextGen (e : Option Nat) : (setError s e).nextGen = s.nextGen := by
  unfold setError; split <;> rfl

@[simp] theorem setError_error (e : Option Nat) : (setError s e).error = e := by
  unfold setError; split
  next h => exact h
  next => rfl

@[simp] theorem setInit_data (b : Bool) : (setInit s b).data = s.data := by
  unfold setInit; split <;> rfl

@[simp] theorem setInit_dataLog (b : Bool) : (setInit s b).dataLog = s.dataLog := by
  unfold setInit; split <;> rfl

@[simp] theorem setInit_error (b : Bool) : (setInit s b).error = s.error := by
  unfold setInit; split <;> rfl

@[simp] theorem setInit_errorLog (b : Bool) : (setInit s b).errorLog = s.errorLog := by
  unfold setInit; split <;> rfl

@[simp] theorem setInit_loading (b : Bool) : (setInit s b).loading = s.loading := by
  unfold setInit; split <;> rfl

@[simp] theorem setInit_loadLog (b : Bool) : (setInit s b).loadLog = s.loadLog := by
  unfold setInit; split <;> rfl

@[simp] theorem setInit_source (b : Bool) : (setInit s b).source = s.source := by
  unfold setInit; split <;> rfl

@[simp] theorem setInit_active (b : Bool) : (setInit s b).active = s.active := by
  unfold setInit; split <;> rfl

@[simp] theorem setInit_nextGen (b : Bool) : (setInit s b).nextGen = s.nextGen := by
  unfold setInit; split <;> rfl

@[simp] theorem setInit_initialState (b : Bool) : (setInit s b).initialState = b := by
  unfold setInit; split
  next h => exact h
  next => rfl

@[simp] theorem setLoading_data (b : Bool) : (setLoading s b).data = s.data := by
  unfold setLoading; split <;> rfl

@[simp] theorem setLoading_dataLog (b : Bool) : (setLoading s b).dataLog = s.dataLog := by
  unfold setLoading; split <;> rfl

@[simp] theorem setLoading_error (b : Bool) : (setLoading s b).error = s.error := by
  unfold setLoading; split <;> rfl

@[simp] theorem setLoading_errorLog (b : Bool) : (setLoading s b).errorLog = s.errorLog := by
  unfold setLoading; split <;> rfl

@[simp] theorem setLoading_initialState (b : Bool) :
    (setLoading s b).initialState = s.initialState := by
  unfold setLoading; split <;> rfl

@[simp] theorem setLoading_initLog (b : Bool) : (setLoading s b).initLog = s.initLog := by
  unfold setLoading; split <;> rfl

@[simp] theorem setLoading_source (b : Bool) : (setLoading s b).source = s.source := by
  unfold setLoading; split <;> rfl

@[simp] theorem setLoading_active (b : Bool) : (setLoading s b).active = s.active := by
  unfold setLoading; split <;> rfl

@[simp] theorem setLoading_nextGen (b : Bool) : (setLoading s b).nextGen = s.nextGen := by
  unfold setLoading; split <;> rfl

@[simp] theorem setLoading_loading (b : Bool) : (setLoading s b).loading = b := by
  unfold setLoading; split
  next h => exact h
  next => rfl

@[simp] theorem setData_data_none : (setData s none).data = some none := by
  unfold setData
  split
  next h =>
    cases hd : s.data with
    | none => rw [hd] at h; simp at h
    | some old =>
      cases old with
      | none => rfl
      | some w => rw [hd] at h; simp [strictEqN] at h
  next => rfl

@[simp] theorem dropActive_data : (dropActive s).data = s.data := by
  unfold dropActive; split <;> simp

@[simp] theorem dropActive_dataLog : (dropActive s).dataLog = s.dataLog := by
  unfold dropActive; split <;> simp

@[simp] theorem dropActive_error : (dropActive s).error = s.error := by
  unfold dropActive; split <;> simp

@[simp] theorem dropActive_errorLog : (dropActive s).errorLog = s.errorLog := by
  unfold dropActive; split <;> simp

@[simp] theorem dropActive_initialState : (dropActive s).initialState = s.initialState := by
  unfold dropActive; split <;> simp

@[simp] theorem dropActive_source : (dropActive s).source = s.source := by
  unfold dropActive; split <;> simp

@[simp] theorem dropActive_active : (dropActive s).active = s.active := by
  unfold dropActive; split <;> simp

@[simp] theorem dropActive_nextGen : (dropActive s).nextGen = s.nextGen := by
  unfold dropActive; split <;> simp

@[simp] theorem subscribeSource_data : (subscribeSource s).data = s.data := by
  unfold subscribeSource; cases s.source <;> simp

@[simp] theorem subscribeSource_dataLog : (subscribeSource s).dataLog = s.dataLog := by
  unfold subscribeSource; cases s.source <;> simp

/-- Case analysis of starting a fetch: with no source configured the
chain stays idle; with a source configured a fresh generation becomes
live, the counter advances and loading is set. -/
theorem subscribeSource_cases :
    (s.source = none ∧ subscribeSource s = { s with active := none }) ∨
      (s.source ≠ none ∧
        (subscribeSource s).active = some s.nextGen ∧
        (subscribeSource s).nextGen = s.nextGen + 1 ∧
        (subscribeSource s).source = s.source ∧
        (subscribeSource s).data = s.data ∧
        (subscribeSource s).dataLog = s.dataLog ∧
        (subscribeSource s).error = s.error ∧
        (subscribeSource s).errorLog = s.errorLog ∧
        (subscribeSource s).initialState = s.initialState ∧
        (subscribeSource s).loading = true) := by
  unfold subscribeSource
  cases hs : s.source with
  | none => exact Or.inl ⟨rfl, rfl⟩
  | some sid => exact Or.inr ⟨by simp [hs], by simp, by simp, by simp [hs], by simp,
      by simp, by simp, by simp, by simp, by simp⟩

/-- Every step leaves the live generation and the counter unchanged,
or drops the subscription, or subscribes the fresh generation and
advances the counter. -/
theorem step_active_cases (e : Ev) :
    ((step s e).active = s.active ∧ (step s e).nextGen = s.nextGen) ∨
      ((step s e).active = none ∧ (step s e).nextGen = s.nextGen) ∨
      ((step s e).active = some s.nextGen ∧ (step s e).nextGen = s.nextGen + 1) := by
  have hsub : ∀ u : State,
      ((subscribeSource u).active = none ∧ (subscribeSource u).nextGen = u.nextGen) ∨
        ((subscribeSource u).active = some u.nextGen ∧
          (subscribeSource u).nextGen = u.nextGen + 1) := by
    intro u
    rcases subscribeSource_cases u with ⟨_, h⟩ | ⟨_, h1, h2, _⟩
    · exact Or.inl ⟨by rw [h], by rw [h]⟩
    · exact Or.inr ⟨h1, h2⟩
  cases e with
  | pulse =>
      rcases hsub (dropActive s) with ⟨h1, h2⟩ | ⟨h1, h2⟩
      · refine Or.inr (Or.inl ⟨h1, ?_⟩)
        show (subscribeSource (dropActive s)).nextGen = s.nextGen
        rw [h2]; simp
      · refine Or.inr (Or.inr ⟨?_, ?_⟩)
        · show (subscribeSource (dropActive s)).active = some s.nextGen
          rw [h1]; simp
        · show (subscribeSource (dropActive s)).nextGen = s.nextGen + 1
          rw [h2]; simp
  | setSource sid =>
      have hstep : step s (.setSource sid) = stepSetSource s sid := rfl
      rw [hstep]
      unfold stepSetSource
      split
      · exact Or.inl ⟨rfl, rfl⟩
      · rcases hsub (dropActive { s with source := some sid }) with ⟨h1, h2⟩ | ⟨h1, h2⟩
        · refine Or.inr (Or.inl ⟨h1, ?_⟩)
          rw [h2]; simp
        · refine Or.inr (Or.inr ⟨?_, ?_⟩)
          · rw [h1]; simp
          · rw [h2]; simp
  | next g v =>
      have hstep : step s (.next g v) = stepNext s g v := rfl
      rw [hstep]
      unfold stepNext
      split
      · exact Or.inl ⟨by simp, by simp⟩
      · exact Or.inl ⟨rfl, rfl⟩
  | fail g e =>
      have hstep : step s (.fail g e) = stepFail s g e := rfl
      rw [hstep]
      unfold stepFail
      split
      · exact Or.inr (Or.inl ⟨rfl, by simp⟩)
      · exact Or.inl ⟨rfl, rfl⟩
  | complete g =>
      have hstep : step s (.complete g) = stepComplete s g := rfl
      rw [hstep]
      unfold stepComplete
      split
      · exact Or.inr (Or.inl ⟨rfl, by simp⟩)
      · exact Or.inl ⟨rfl, rfl⟩
  | clearData =>
      refine Or.inl ⟨?_, ?_⟩
      · show (setData s none).active = s.active
        simp
      · show (setData s none).nextGen = s.nextGen
        simp
  | reset =>
      refine Or.inl ⟨?_, ?_⟩
      · show (setInit (setData s none) true).active = s.active
        simp
      · show (setInit (setData s none) true).nextGen = s.nextGen
        simp
  | resetAndRefresh =>
      rcases hsub (dropActive (stepReset s)) with ⟨h1, h2⟩ | ⟨h1, h2⟩
      · refine Or.inr (Or.inl ⟨h1, ?_⟩)
        show (subscribeSource (dropActive (stepReset s))).nextGen = s.nextGen
        rw [h2]; simp [stepReset]
      · refine Or.inr (Or.inr ⟨?_, ?_⟩)
        · show (subscribeSource (dropActive (stepReset s))).active = some s.nextGen
          rw [h1]; simp [stepReset]
        · show (subscribeSource (dropActive (stepReset s))).nextGen = s.nextGen + 1
          rw [h2]; simp [stepReset]

theorem genOk_initState : GenOk initState := by
  intro g h
  simp [initState] at h

theorem genOk_step {t : State} (h : GenOk t) (e : Ev) : GenOk (step t e) := by
  intro g hg
  rcases step_active_cases t e with ⟨h1, h2⟩ | ⟨h1, h2⟩ | ⟨h1, h2⟩
  · rw [h1] at hg
    rw [h2]
    exact h g hg
  · rw [h1] at hg
    exact absurd hg (by simp)
  · rw [h1] at hg
    rw [h2]
    cases hg
    omega

theorem genOk_run {t : State} (h : GenOk t) (tr : List Ev) : GenOk (run t tr) := by
  induction tr generalizing t with
  | nil => exact h
  | cons e tr ih => exact ih (genOk_step h e)

theorem genOk_reachable {t : State} (h : Reachable t) : GenOk t := by
  obtain ⟨tr, rfl⟩ := h
  exact genOk_run genOk_initState tr

theorem stale_step {g : Nat} {t : State} (h : Stale g t) (e : Ev) : Stale g (step t e) := by
  obtain ⟨hne, hlt⟩ := h
  rcases step_active_cases t e with ⟨h1, h2⟩ | ⟨h1, h2⟩ | ⟨h1, h2⟩
  · exact ⟨by rw [h1]; exact hne, by rw [h2]; exact hlt⟩
  · exact ⟨by rw [h1]; simp, by rw [h2]; exact hlt⟩
  · refine ⟨by rw [h1]; intro hc; cases hc; omega, by rw [h2]; omega⟩

theorem stale_run {g : Nat} {t : State} (h : Stale g t) (tr : List Ev) :
    Stale g (run t tr) := by
  induction tr generalizing t with
  | nil => exact h
  | cons e tr ih => exact ih (stale_step h e)

theorem stale_next_noop {g : Nat} {t : State} (h : t.active ≠ some g) (v : JSVal) :
    step t (.next g v) = t := by
  have hstep : step t (.next g v) = stepNext t g v := rfl
  rw [hstep]
  unfold stepNext
  rw [if_neg h]

theorem stale_fail_noop {g : Nat} {t : State} (h : t.active ≠ some g) (e : Nat) :
    step t (.fail g e) = t := by
  have hstep : step t (.fail g e) = stepFail t g e := rfl
  rw [hstep]
  unfold stepFail
  rw [if_neg h]

/-- A pulse supersedes the fetch that was live when it arrived. -/
theorem supersede_pulse {g : Nat} {t : State} (hok : GenOk t) (hact : t.active = some g) :
    Stale g (step t .pulse) := by
  have hlt : g < t.nextGen := hok g hact
  rcases subscribeSource_cases (dropActive t) with ⟨_, heq⟩ | ⟨_, h1, h2, _⟩
  · refine ⟨?_, ?_⟩
    · show (subscribeSource (dropActive t)).active ≠ some g
      rw [heq]
      simp
    · show g < (subscribeSource (dropActive t)).nextGen
      rw [heq]
      simpa using hlt
  · refine ⟨?_, ?_⟩
    · show (subscribeSource (dropActive t)).active ≠ some g
      rw [h1]
      simp only [dropActive_nextGen]
      intro hc
      rw [Option.some_inj] at hc
      omega
    · show g < (subscribeSource (dropActive t)).nextGen
      rw [h2]
      simp only [dropActive_nextGen]
      omega

/-- Replacing the configured source with a different observable
supersedes the fetch that was live when the write arrived. -/
theorem supersede_setSource {g sid : Nat} {t : State} (hok : GenOk t)
    (hact : t.active = some g) (hsrc : t.source ≠ some sid) :
    Stale g (step t (.setSource sid)) := by
  have hlt : g < t.nextGen := hok g hact
  have hform :
      step t (.setSource sid) =
        subscribeSource (dropActive { t with source := some sid }) := by
    have hstep : step t (.setSource sid) = stepSetSource t sid := rfl
    rw [hstep]
    unfold stepSetSource
    rw [if_neg hsrc]
  rcases subscribeSource_cases (dropActive { t with source := some sid }) with
    ⟨hs, _⟩ | ⟨_, h1, h2, _⟩
  · rw [dropActive_source] at hs
    simp at hs
  · refine ⟨?_, ?_⟩
    · rw [hform, h1]
      simp only [dropActive_nextGen]
      show some t.nextGen ≠ some g
      intro hc
      rw [Option.some_inj] at hc
      omega
    · rw [hform, h2]
      simp only [dropActive_nextGen]
      show g < t.nextGen + 1
      omega

/-- The data-key/data-log relation only reads the two fields it
mentions. -/
theorem dataOk_congr {t u : State} (hd : u.data = t.data) (hl : u.dataLog = t.dataLog)
    (h : DataOk t) : DataOk u := by
  unfold DataOk at *
  rw [hd, hl]
  exact h

theorem dataOk_setData {t : State} (h : DataOk t) (v : NVal) : DataOk (setData t v) := by
  obtain ⟨hhead, hempty, hchain⟩ := h
  unfold DataOk DataOkOn
  unfold setData
  split
  next hc => exact ⟨hhead, hempty, hchain⟩
  next hc =>
    refine ⟨?_, ?_, ?_⟩
    · intro x hx
      have hvx : v = x := by simpa using hx
      subst hvx
      rfl
    · intro hx
      simp at hx
    · show List.Chain' _ (v :: t.dataLog)
      cases hl : t.dataLog with
      | nil => simp
      | cons a rest =>
        rw [List.chain'_cons]
        constructor
        · cases hd : t.data with
          | none =>
            have hnil : t.dataLog = [] := hempty hd
            rw [hl] at hnil
            cases hnil
          | some old =>
            have hh := hhead old hd
            rw [hl] at hh
            have ha : a = old := by simpa using hh
            rw [hd] at hc
            subst ha
            simpa using hc
        · rw [hl] at hchain
          exact hchain

theorem dataOk_step {t : State} (h : DataOk t) (e : Ev) : DataOk (step t e) := by
  cases e with
  | pulse =>
      refine dataOk_congr ?_ ?_ h
      · show (subscribeSource (dropActive t)).data = t.data
        simp
      · show (subscribeSource (dropActive t)).dataLog = t.dataLog
        simp
  | setSource sid =>
      have hstep : step t (.setSource sid) = stepSetSource t sid := rfl
      rw [hstep]
      unfold stepSetSource
      split
      · exact h
      · exact dataOk_congr (by simp) (by simp) h
  | next g v =>
      have hstep : step t (.next g v) = stepNext t g v := rfl
      rw [hstep]
      unfold stepNext
      split
      · exact dataOk_setData (dataOk_congr (by simp) (by simp) h) (some v)
      · exact h
  | fail g e =>
      have hstep : step t (.fail g e) = stepFail t g e := rfl
      rw [hstep]
      unfold stepFail
      split
      · exact dataOk_congr (by simp) (by simp) h
      · exact h
  | complete g =>
      have hstep : step t (.complete g) = stepComplete t g := rfl
      rw [hstep]
      unfold stepComplete
      split
      · exact dataOk_congr (by simp) (by simp) h
      · exact h
  | clearData => exact dataOk_setData h none
  | reset =>
      refine dataOk_congr ?_ ?_ (dataOk_setData h none)
      · show (setInit (setData t none) true).data = (setData t none).data
        simp
      · show (setInit (setData t none) true).dataLog = (setData t none).dataLog
        simp
  | resetAndRefresh =>
      refine dataOk_congr ?_ ?_ (dataOk_setData h none)
      · show (subscribeSource (dropActive (stepReset t))).data = (setData t none).data
        simp [stepReset]
      · show (subscribeSource (dropActive (stepReset t))).dataLog = (setData t none).dataLog
        simp [stepReset]

theorem dataOk_run {t : State} (h : DataOk t) (tr : List Ev) : DataOk (run t tr) := by
  induction tr generalizing t with
  | nil => exact h
  | cons e tr ih => exact ih (dataOk_step h e)

theorem dataOk_initState : DataOk initState := by
  refine ⟨?_, ?_, ?_⟩
  · intro x hx
    simp [initState] at hx
  · intro
    rfl
  · simp [initState]

end DataSource

namespace TableDataSource

/-- Folding values through the deduplicating accumulator keeps
consecutive entries distinct under the comparator (the accumulator is
newest first, so the relation is read older-from-newer). -/
theorem chain_foldl_dedupCons (eq : α → α → Bool) (xs : List α) (acc : List α)
    (h : List.Chain' (fun a b => eq b a = false) acc) :
    List.Chain' (fun a b => eq b a = false) (xs.foldl (dedupCons eq) acc) := by
  induction xs generalizing acc with
  | nil => exact h
  | cons x xs ih =>
      apply ih
      cases acc with
      | nil =>
          show List.Chain' (fun a b => eq b a = false) [x]
          simp
      | cons prev rest =>
          show List.Chain' (fun a b => eq b a = false)
            (if eq prev x = true then prev :: rest else x :: prev :: rest)
          split
          next => exact h
          next hc =>
              rw [List.chain'_cons]
              exact ⟨by simpa using hc, h⟩

/-- A distinctUntilChanged stream never emits two consecutive values
the comparator counts as equal. -/
theorem emitTrace_chain (eq : α → α → Bool) (xs : List α) :
    List.Chain' (fun a b => eq a b = false) (emitTrace eq xs) := by
  unfold emitTrace
  rw [List.chain'_reverse]
  exact chain_foldl_dedupCons eq xs [] (by simp)

end TableDataSource

/-! ### The claims -/

open DataSource TableDataSource Interval in
/-- C1: a newer execute pulse, or a replacement of the configured
source observable, supersedes the in-flight fetch of generation g: its
subscription is dropped at once, and a value or an error that fetch
would later have delivered — at any later point of any continuation of
the trace — leaves the whole observable state, data$, error$ and every
other state field and emission log, exactly unchanged. -/
theorem c1_superseded_fetch_never_reaches_state
    {s : DataSource.State} {g : Nat} {e : DataSource.Ev}
    (hreach : Reachable s) (hact : s.active = some g)
    (hsup : e = .pulse ∨ ∃ sid, e = .setSource sid ∧ s.source ≠ some sid)
    (tr : List DataSource.Ev) (v : JSVal) (err : Nat) :
    (step s e).active ≠ some g ∧
      step (run (step s e) tr) (.next g v) = run (step s e) tr ∧
      step (run (step s e) tr) (.fail g err) = run (step s e) tr := by
  have hok : GenOk s := genOk_reachable hreach
  have hstale : Stale g (step s e) := by
    rcases hsup with rfl | ⟨sid, rfl, hsrc⟩
    · exact supersede_pulse hok hact
    · exact supersede_setSource hok hact hsrc
  have hrun : Stale g (run (step s e) tr) := stale_run hstale tr
  exact ⟨hstale.1, stale_next_noop hrun.1 v, stale_fail_noop hrun.1 err⟩

open DataSource in
/-- Witness for C1: the fetch started by configuring source 4 is
superseded by a pulse; a late value it delivers afterwards, even after
the replacing fetch has already emitted, changes nothing. -/
theorem c1_witness :
    (run initState [.setSource 4]).active = some 0 ∧
      ((step (run initState [.setSource 4]) .pulse).active ≠ some 0 ∧
        step (run (step (run initState [.setSource 4]) .pulse) [.next 1 (.prim 5)])
            (.next 0 (.prim 7)) =
          run (step (run initState [.setSource 4]) .pulse) [.next 1 (.prim 5)] ∧
        step (run (step (run initState [.setSource 4]) .pulse) [.next 1 (.prim 5)])
            (.fail 0 3) =
          run (step (run initState [.setSource 4]) .pulse) [.next 1 (.prim 5)]) :=
  ⟨by decide,
    c1_superseded_fetch_never_reaches_state ⟨[.setSource 4], rfl⟩ (by decide)
      (Or.inl rfl) [.next 1 (.prim 5)] (.prim 7) 3⟩

open DataSource in
/-- C2 counterexample: two consecutive successful fetch results that
are equal by value — two distinct array objects with the same
elements — are both emitted on data$: the second one is not
suppressed, refuting value-based duplicate suppression for arrays. -/
theorem c2_counterexample :
    valueEq (.arr 0 [1, 2, 3]) (.arr 1 [1, 2, 3]) = true ∧
      (run initState
          [.setSource 4, .next 0 (.arr 0 [1, 2, 3]), .pulse,
            .next 1 (.arr 1 [1, 2, 3])]).dataLog =
        [some (.arr 1 [1, 2, 3]), some (.arr 0 [1, 2, 3])] := by
  exact ⟨by decide, by decide⟩

open DataSource in
/-- C2 amended: data$ suppresses consecutive duplicates by JavaScript
strict equality — along every trace no two consecutive data$ emissions
are strictly equal; repeated primitives and re-emissions of the same
object are suppressed, while structurally equal but distinct array
objects are not. -/
theorem c2_amended_strict_duplicate_suppression (tr : List DataSource.Ev) :
    List.Chain' (fun newer older => strictEqN older newer = false)
      (run initState tr).dataLog :=
  (dataOk_run dataOk_initState tr).2.2

open TableDataSource in
/-- C4: row accumulation of the table layer — under the scroll
strategy a non-null batch is concatenated onto the existing rows and a
null batch leaves them unchanged; under paginate or none the rows
become exactly the new batch, or the empty collection when the batch
is null; three scroll batches end as their concatenation in arrival
order. -/
theorem c4_rows_accumulation :
    (∀ (cur nr : List Int), rowsStep cur (some nr) true = cur ++ nr) ∧
      (∀ cur : List Int, rowsStep cur none true = cur) ∧
      (∀ (cur : List Int) (nr : Option (List Int)), rowsStep cur nr false = nr.getD []) ∧
      runRows [(some [1, 2, 3], true), (some [4, 5, 6], true), (some [7, 8, 9], true)] =
        [1, 2, 3, 4, 5, 6, 7, 8, 9] := by
  refine ⟨fun cur nr => rfl, fun cur => rfl, fun cur nr => rfl, by decide⟩

open TableDataSource in
/-- C5: evaluation at the failing input jumpToPage(-1).  The table
model committed under the named path seeds the page scan with the raw
jump value, so page$ exposes -1, below the floor of 1 that the claim
and the model's own test expect; the later revision's clamped seed
yields 1 at the same input; the decrement floor of the shared scan
does hold. -/
theorem c5_jump_below_one_eval :
    pageTrace (namedSeed (-1)) [0, 0] = [-1] ∧
      (pageTrace (namedSeed (-1)) [0, 0]).all (fun p => decide (p < 1)) = true ∧
      pageTrace (clampedSeed (-1)) [0, 0] = [1] ∧
      pageTrace (namedSeed 2) [0, 0, -1, -1] = [2, 1] := by
  exact ⟨by decide, by decide, by decide, by decide⟩

open DataSource in
/-- C10: reset writes data = null and initialState = true in one state
transition and leaves everything else untouched — error and loading
keep their values and emission logs, so an error present before reset
is still reported on error$ afterwards, and the configured source and
any in-flight subscription survive. -/
theorem c10_reset_frame (s : DataSource.State) :
    (step s .reset).data = some none ∧
      (step s .reset).initialState = true ∧
      (step s .reset).error = s.error ∧
      (step s .reset).errorLog = s.errorLog ∧
      (step s .reset).loading = s.loading ∧
      (step s .reset).loadLog = s.loadLog ∧
      (step s .reset).source = s.source ∧
      (step s .reset).active = s.active := by
  have hstep : step s .reset = setInit (setData s none) true := rfl
  rw [hstep]
  refine ⟨?_, ?_, ?_, ?_, ?_, ?_, ?_, ?_⟩ <;> simp

open DataSource in
/-- C3: when the live fetch fails with error e, the machine sets error
to e and initialState to false, absorbs the failure — data and its
emission log are untouched, loading returns to false and the machine
keeps stepping — and, with the source still configured, the next
execute pulse unconditionally starts a fresh fetch whose next
successful value clears error back to null. -/
theorem c3_error_absorbed {s : DataSource.State} {g : Nat} (e : Nat)
    (hact : s.active = some g) :
    (step s (.fail g e)).error = some e ∧
      (step s (.fail g e)).initialState = false ∧
      (step s (.fail g e)).loading = false ∧
      (step s (.fail g e)).data = s.data ∧
      (step s (.fail g e)).dataLog = s.dataLog ∧
      (step s (.fail g e)).source = s.source ∧
      ∀ sid, s.source = some sid →
        (step (step s (.fail g e)) .pulse).loading = true ∧
        (step (step s (.fail g e)) .pulse).active = some (step s (.fail g e)).nextGen ∧
        ∀ v, (step (step (step s (.fail g e)) .pulse)
                (.next (step s (.fail g e)).nextGen v)).error = none ∧
          (step (step (step s (.fail g e)) .pulse)
              (.next (step s (.fail g e)).nextGen v)).initialState = false := by
  have hT : step s (.fail g e) =
      { setLoading (setInit (setError s (some e)) false) false with active := none } := by
    have hstep : step s (.fail g e) = stepFail s g e := rfl
    rw [hstep]
    unfold stepFail
    rw [if_pos hact]
  refine ⟨by rw [hT]; simp, by rw [hT]; simp, by rw [hT]; simp, by rw [hT]; simp,
    by rw [hT]; simp, by rw [hT]; simp, ?_⟩
  intro sid hsid
  set t := step s (.fail g e) with ht
  have htact : t.active = none := by rw [hT]
  have htsrc : t.source = some sid := by rw [hT]; simpa using hsid
  have hdrop : dropActive t = t := by simp [dropActive, htact]
  have hpulse : step t .pulse = subscribeSource t := by
    show subscribeSource (dropActive t) = subscribeSource t
    rw [hdrop]
  have hsub : subscribeSource t =
      { setLoading t true with active := some t.nextGen, nextGen := t.nextGen + 1 } := by
    simp only [subscribeSource]
    rw [htsrc]
  refine ⟨by rw [hpulse, hsub]; simp, by rw [hpulse, hsub], ?_⟩
  intro v
  have hcond : (step t .pulse).active = some t.nextGen := by rw [hpulse, hsub]
  have hnext : step (step t .pulse) (.next t.nextGen v) =
      setData (setInit (setError (step t .pulse) none) false) (some v) := by
    have hstep2 : step (step t .pulse) (.next t.nextGen v) =
        stepNext (step t .pulse) t.nextGen v := rfl
    rw [hstep2]
    unfold stepNext
    rw [if_pos hcond]
  exact ⟨by rw [hnext]; simp, by rw [hnext]; simp⟩

open DataSource in
/-- Witness for C3 at a concrete failing fetch: configure source 4,
fail the live fetch with error 7, observe the error field. -/
theorem c3_witness :
    (run initState [.setSource 4]).active = some 0 ∧
      (step (run initState [.setSource 4]) (.fail 0 7)).error = some 7 ∧
      (step (run initState [.setSource 4]) (.fail 0 7)).loading = false :=
  ⟨by decide, (c3_error_absorbed 7 (by decide)).1,
    (c3_error_absorbed 7 (by decide)).2.2.1⟩

open TableDataSource in
/-- C6 counterexample: with limit = true and strategy none the
derivation still substitutes the fallback limit and emits pagination
parameters skip 0, take 10, where the claim requires that none be
sent. -/
theorem c6_counterexample :
    paginationParams (.bool true) 1 .none = some { skip := 0, take := 10 } := by
  decide

open TableDataSource in
/-- C6 amended: the fallback limit 10 is substituted when limit is
true — under every strategy, including none — or when limit is not a
number and the strategy is paginate or scroll; a numeric limit always
yields skip (page - 1) * limit and take limit; limit false under
strategy none yields no parameters; and consecutive derivations with
equal skip and take are not re-emitted. -/
theorem c6_amended_fallback_and_params :
    (∀ (page : Int) (strat : PaginationStrategy),
        paginationParams (.bool true) page strat =
          some { skip := (page - 1) * 10, take := 10 }) ∧
      (∀ page : Int, paginationParams (.bool false) page .paginate =
        some { skip := (page - 1) * 10, take := 10 }) ∧
      (∀ page : Int, paginationParams (.bool false) page .scroll =
        some { skip := (page - 1) * 10, take := 10 }) ∧
      (∀ page : Int, paginationParams (.bool false) page .none = none) ∧
      (∀ (n page : Int) (strat : PaginationStrategy),
        paginationParams (.num n) page strat = some { skip := (page - 1) * n, take := n }) ∧
      ∀ inputs, List.Chain' (fun a b => paramsEq a b = false) (paramsTrace inputs) := by
  refine ⟨?_, ?_, ?_, ?_, ?_, fun inputs => emitTrace_chain paramsEq _⟩
  · intro page strat
    simp [paginationParams, effectiveTake, fallbackLimit]
  · intro page
    simp [paginationParams, effectiveTake, fallbackLimit, Limit.isNum]
  · intro page
    simp [paginationParams, effectiveTake, fallbackLimit, Limit.isNum]
  · intro page
    simp [paginationParams, effectiveTake, Limit.isNum]
  · intro n page strat
    simp [paginationParams, effectiveTake, Limit.isNum]

open DataSource in
/-- C7 counterexample: a single source write, with no execute pulse
anywhere in the trace, already subscribes the configured source: the
subscription is live and loading has been driven true — the invocation
did not wait for the next pulse. -/
theorem c7_counterexample :
    (run initState [.setSource 4]).active = some 0 ∧
      (run initState [.setSource 4]).loading = true ∧
      (run initState [.setSource 4]).loadLog = [true, false] := by
  exact ⟨by decide, by decide, by decide⟩

open DataSource in
/-- C7 amended: writing a new source observable emits nothing on data$
or error$ and is not an execute pulse, but it starts an invocation
immediately: the always-subscribed pipeline switches to the new source
at once, superseding any in-flight fetch, rather than waiting for the
next pulse. -/
theorem c7_amended_setSource_invokes_immediately
    {s : DataSource.State} {sid : Nat}
    (hreach : Reachable s) (hsrc : s.source ≠ some sid) :
    (step s (.setSource sid)).source = some sid ∧
      (step s (.setSource sid)).active = some s.nextGen ∧
      (step s (.setSource sid)).loading = true ∧
      (step s (.setSource sid)).dataLog = s.dataLog ∧
      (step s (.setSource sid)).errorLog = s.errorLog ∧
      ∀ g, s.active = some g → (step s (.setSource sid)).active ≠ some g := by
  have hform :
      step s (.setSource sid) =
        subscribeSource (dropActive { s with source := some sid }) := by
    have hstep : step s (.setSource sid) = stepSetSource s sid := rfl
    rw [hstep]
    unfold stepSetSource
    rw [if_neg hsrc]
  rcases subscribeSource_cases (dropActive { s with source := some sid }) with
    ⟨hs, _⟩ | ⟨_, h1, h2, h3, h4, h5, h6, h7, h8, h9⟩
  · rw [dropActive_source] at hs
    simp at hs
  · refine ⟨?_, ?_, ?_, ?_, ?_, ?_⟩
    · rw [hform, h3]
      simp
    · rw [hform, h1]
      simp
    · rw [hform, h9]
    · rw [hform, h5]
      simp
    · rw [hform]
      have herr : (subscribeSource (dropActive { s with source := some sid })).errorLog =
          s.errorLog := by
        rw [h7]
        simp
      exact herr
    · intro g hact
      exact (supersede_setSource (genOk_reachable hreach) hact hsrc).1

open DataSource in
/-- Witness for C7 at the initial state: configuring source 0 on a
fresh machine starts its invocation at once. -/
theorem c7_witness :
    initState.source ≠ some 0 ∧
      ((step initState (.setSource 0)).source = some 0 ∧
        (step initState (.setSource 0)).active = some initState.nextGen ∧
        (step initState (.setSource 0)).loading = true ∧
        (step initState (.setSource 0)).dataLog = initState.dataLog ∧
        (step initState (.setSource 0)).errorLog = initState.errorLog ∧
        ∀ g, initState.active = some g → (step initState (.setSource 0)).active ≠ some g) :=
  ⟨by decide, c7_amended_setSource_invokes_immediately ⟨[], rfl⟩ (by decide)⟩

open Interval in
/-- C8: the revised interval with the 0.1 s threshold never creates a
timer when the refresh interval is undefined, 0, or exactly the 100 ms
threshold — execute emissions coincide with the manual refresh calls —
while the interval model committed under the named path hands the rxjs
interval function an undefined period when the rate is 0, creating a
period-0 timer that fires with no refresh call at all: the runaway the
claim and the repository's own interval test rule out. -/
theorem c8_disabled_interval_eval :
    (∀ (t : Int) (refreshes : List Int),
        executeAt (thresholdPeriod none) refreshes t = refreshes.contains t ∧
          executeAt (thresholdPeriod (some 0)) refreshes t = refreshes.contains t ∧
          executeAt (thresholdPeriod (some 100)) refreshes t = refreshes.contains t) ∧
      namedPeriod (some 0) = some 0 ∧
      executeAt (namedPeriod (some 0)) [] 0 = true ∧
      executeAt (thresholdPeriod (some 0)) [] 0 = false := by
  have h0 : thresholdPeriod (some 0) = none := by decide
  have h100 : thresholdPeriod (some 100) = none := by decide
  refine ⟨?_, by decide, by decide, by decide⟩
  intro t refreshes
  refine ⟨?_, ?_, ?_⟩ <;>
    simp [executeAt, autoAt, thresholdPeriod, h0, h100]

open Interval in
/-- C9 counterexample: a trigger with a 1 s interval does not fire at
t = 0 — there is no subscribe-time pulse on the Trigger itself. -/
theorem c9_counterexample :
    executeAt (thresholdPeriod (some 1000)) [2500] 0 = false := by decide

open Interval in
/-- C9 amended: with a 1 s interval the Trigger first fires at
t = 1000 ms, then every 1000 ms; the refresh at t = 2500 ms emits a
pulse and resets the timer phase, so the next automatic pulse is at
3500 ms and none occurs at 3000 ms; nothing fires at t = 0, where the
managed data source's own subscribe-time startWith supplies the
initial fetch instead. -/
theorem c9_amended_timeline :
    ((List.range 41).map (fun i => ((100 : Int) * i))).filter
        (fun t => executeAt (thresholdPeriod (some 1000)) [2500] t) =
      [1000, 2000, 2500, 3500] := by
  decide

end RxDataSource
